import Mathlib

/-!
Verification of the BigchainDB python driver (`bigchaindb_driver/driver.py`)
against its natural-language specification.

The driver module under `src/` is embedded shallowly below:
Python methods become Lean functions, the mutable round-robin cursor of the
node pool becomes explicit state threading (a `Nat` cursor passed in and
returned), and raised exceptions become `Except DriverError`.  The HTTP
capability is an oracle parameter `http : String → HttpReq → HttpResult`;
every network call an operation makes is recorded in a `calls` trace so that
"no network call happens before the error" and "exactly one node is
contacted" are statable.

Parts of the system that the claims depend on but whose code is not under
`src/` (the `Transport`/`NodePool` from `bigchaindb_driver.transport` and
`bigchaindb_driver.pool`, and the transaction builder/signer from the
external `bigchaindb_common` package) are modelled from the specification;
each such definition carries a doc comment saying so.
-/

/-- Errors of the driver.  `invalidVerifyingKey` and `invalidSigningKey` are
the two exception classes imported and raised by `driver.py`
(`from .exceptions import InvalidVerifyingKey, InvalidSigningKey`).
`missingVerifyingKey`/`missingSigningKey` are the distinct error names the
specification's taxonomy (§7) uses for unresolved keys; they are included so
that statements comparing the two taxonomies can be made.
`invalidOwnerSet` and `signingKeyMismatch` are the builder/signer errors of
spec §4.1–§4.2; `transportError` is a transport-level failure carrying the
identity of the node attempted (spec §7). -/
inductive DriverError where
  | invalidVerifyingKey
  | invalidSigningKey
  | missingVerifyingKey
  | missingSigningKey
  | invalidOwnerSet
  | signingKeyMismatch
  | transportError (node : String)
  deriving DecidableEq, Repr

/-- HTTP method of a request; the driver only ever issues GET and POST. -/
inductive Method where
  | GET
  | POST
  deriving DecidableEq, Repr

/-- Transaction operation kind (spec §3). -/
inductive Operation where
  | CREATE
  | TRANSFER
  deriving DecidableEq, Repr

/-- Opaque asset metadata; the driver never inspects it
(`payload` argument of `create`, default `None`). -/
abbrev Payload := Option String

/-- An input of a transaction: an optional reference to a prior output (its
index; `none` for CREATE) plus the public keys authorized to spend it.
Modelled from the spec: §3 `Input` (of `bigchaindb_common.transaction`,
not under `src/`). -/
structure Input where
  fulfills : Option Nat
  owners_before : List String
  deriving DecidableEq, Repr

/-- An output of a transaction: the public keys that become owners.
Modelled from the spec: §3 `Output` (of `bigchaindb_common.transaction`,
not under `src/`). -/
structure Output where
  owners_after : List String
  deriving DecidableEq, Repr

/-- An unsigned transaction.  Modelled from the spec: §3 `Transaction`
(of `bigchaindb_common.transaction`, not under `src/`). -/
structure Transaction where
  operation : Operation
  inputs : List Input
  outputs : List Output
  payload : Payload
  deriving DecidableEq, Repr

/-- A signed transaction: the transaction plus the signing keys used, in
order (one signature per key; the signature bytes themselves are the opaque
cryptographic capability and are represented by the key that produced them).
Modelled from the spec: §3 `SignedTransaction` (of `bigchaindb_common`,
not under `src/`). -/
structure SignedTransaction where
  transaction : Transaction
  signedWith : List String
  deriving DecidableEq, Repr

/-- Modelled from the spec: §4.1 `TransactionBuilder.create` of
`bigchaindb_common` (not under `src/`) — builds a CREATE transaction with a
single input authorized by `owners_before` and a single output owned by
`owners_after`; both sets must be non-empty, else `InvalidOwnerSet`. -/
def Transaction.create (owners_before owners_after : List String)
    (payload : Payload) : Except DriverError Transaction :=
  if owners_before.isEmpty || owners_after.isEmpty then
    .error .invalidOwnerSet
  else
    .ok { operation := .CREATE,
          inputs := [{ fulfills := none, owners_before := owners_before }],
          outputs := [{ owners_after := owners_after }],
          payload := payload }

/-- Modelled from the spec: §4.1 `TransactionBuilder.transfer` of
`bigchaindb_common` (not under `src/`) — builds a TRANSFER transaction
consuming the given inputs and producing one output per supplied owner;
`owners_after` may be empty (burn-like transfer, a deliberate allowance). -/
def Transaction.transfer (inputs : List Input) (owners_after : List String) :
    Transaction :=
  { operation := .TRANSFER,
    inputs := inputs,
    outputs := owners_after.map (fun o => { owners_after := [o] }),
    payload := none }

/-- Modelled from the spec: §4.5 — derives spendable inputs from a prior
transaction's outputs (`Transaction.to_inputs` of `bigchaindb_common`, not
under `src/`): one input per output, authorized by that output's owners. -/
def Transaction.to_inputs (tx : Transaction) : List Input :=
  tx.outputs.enum.map
    (fun p => { fulfills := some p.1, owners_before := p.2.owners_after })

/-- Modelled from the spec: §4.2 `TransactionSigner.sign` of
`bigchaindb_common` (not under `src/`) — fails with `SigningKeyMismatch` if
no signing key is provided, otherwise returns a new signed transaction with
one signature per provided key, in order, leaving the input unchanged. -/
def Transaction.sign (tx : Transaction) (signing_keys : List String) :
    Except DriverError SignedTransaction :=
  if signing_keys.isEmpty then .error .signingKeyMismatch
  else .ok { transaction := tx, signedWith := signing_keys }

/-- A request forwarded to a node: method, path and optional JSON body
(the body, when present, is a signed transaction; its wire serialization is
outside the core per spec §1). -/
structure HttpReq where
  method : Method
  path : String
  body : Option SignedTransaction
  deriving DecidableEq, Repr

/-- The opaque HTTP capability's answer for one attempt on one node
(spec §1: "send(method, url, body) → response or failure"). -/
inductive HttpResult where
  | ok (resp : String)
  | fail (msg : String)
  deriving DecidableEq, Repr

/-- The default node used when the driver is given none
(docstring of `BigchainDB.__init__`). -/
def defaultNode : String := "http://localhost:9984/api/v1"

/-- Modelled from the spec: §4.3 `NodePool`'s round-robin selection
(`bigchaindb_driver.pool.RoundRobinPicker`, not under `src/`) — the node at
the cursor position modulo the pool size. -/
def pickNode (nodes : List String) (cursor : Nat) : String :=
  nodes.getD (cursor % nodes.length) defaultNode

/-- Modelled from the spec: §4.3–§4.4 — the transport configuration: the
immutable tuple of configured nodes and the configurable attempt ceiling
for retryable (GET) requests (`bigchaindb_driver.transport.Transport`, not
under `src/`).  The round-robin cursor is the only mutable state and is
threaded explicitly through the operations rather than stored here. -/
structure Transport where
  nodes : List String
  maxAttempts : Nat
  deriving DecidableEq, Repr

/-- Result of one `forward_request`: the outcome, the advanced round-robin
cursor, and the trace of (node, request) calls actually issued to the HTTP
capability. -/
structure TransportResult where
  result : Except DriverError String
  cursor : Nat
  calls : List (String × HttpReq)
  deriving Repr

/-- Modelled from the spec: §4.4 steps 1–3 — attempt the request on
successive round-robin nodes, at most `fuel` times; each attempt asks the
pool for the next node (advancing the cursor) and issues the call; a
transport failure on the last allowed attempt surfaces as `transportError`
carrying the node attempted. -/
def tryNodes (http : String → HttpReq → HttpResult) (nodes : List String)
    (req : HttpReq) : Nat → Nat → TransportResult
  | cursor, 0 =>
    { result := .error (.transportError (pickNode nodes cursor)),
      cursor := cursor, calls := [] }
  | cursor, fuel + 1 =>
    let node := pickNode nodes cursor
    match http node req with
    | .ok resp =>
      { result := .ok resp, cursor := cursor + 1, calls := [(node, req)] }
    | .fail _msg =>
      match fuel with
      | 0 =>
        { result := .error (.transportError node),
          cursor := cursor + 1, calls := [(node, req)] }
      | f + 1 =>
        let r := tryNodes http nodes req (cursor + 1) (f + 1)
        { result := r.result, cursor := r.cursor,
          calls := (node, req) :: r.calls }

/-- Modelled from the spec: §4.4 `Transport.forward_request`
(`bigchaindb_driver.transport`, not under `src/`) — idempotent GET requests
may be retried against the next node up to the configured attempt ceiling;
mutating (POST) requests are attempted on exactly one node and never
retried across nodes. -/
def Transport.forward_request (http : String → HttpReq → HttpResult)
    (t : Transport) (cursor : Nat) (req : HttpReq) : TransportResult :=
  let attempts := if req.method = Method.GET then max 1 t.maxAttempts else 1
  tryNodes http t.nodes req cursor attempts

/-- The driver's bound state, set in `BigchainDB.__init__` (lines 63–66 of
`driver.py`) and only read afterwards: the optional bound keypair, the
transport, and `nodes` mirroring `self._nodes = self._transport.nodes`. -/
structure BigchainDB where
  verifying_key : Option String
  signing_key : Option String
  transport : Transport
  nodes : List String
  deriving DecidableEq, Repr

/-- A Python value as far as the constructor's `isinstance(…, str)` checks
can observe it: a string, or some non-string object. -/
inductive PyVal where
  | str (s : String)
  | nonStr
  deriving DecidableEq, Repr

/-- The string carried by an optional Python value, if any. -/
def asStr : Option PyVal → Option String
  | some (.str s) => some s
  | _ => none

/-- Whether an optional Python value is present but not a string
(fails the constructor's `isinstance` checks). -/
def isBadStr : Option PyVal → Bool
  | some .nonStr => true
  | _ => false

/-- `BigchainDB.__init__` (`driver.py` lines 21–68): validates the key
material in source order — a non-string `verifying_key` first, then, when a
`signing_key` is given, that it is a string and that a `verifying_key`
accompanies it — then stores the keys and builds the transport from the
given nodes (defaulting to the transport's single built-in node).  The
constructor performs no network call: `transport_class(*nodes)` only stores
configuration. -/
def BigchainDB.init (nodes : List String) (maxAttempts : Nat)
    (verifying_key signing_key : Option PyVal) :
    Except DriverError BigchainDB :=
  if isBadStr verifying_key then .error .invalidVerifyingKey
  else if isBadStr signing_key then .error .invalidSigningKey
  else if signing_key.isSome && verifying_key.isNone then
    .error .invalidVerifyingKey
  else
    let ns := if nodes.isEmpty then [defaultNode] else nodes
    .ok { verifying_key := asStr verifying_key,
          signing_key := asStr signing_key,
          transport := { nodes := ns, maxAttempts := maxAttempts },
          nodes := ns }

/-- Python truthiness of an optional string key: `None` and the empty
string are falsy. -/
def truthy : Option String → Bool
  | none => false
  | some s => decide (s ≠ "")

/-- The key-resolution idiom of `create` (line 162, 165) and `transfer`
(line 224): `key = key if key else self.key` — the per-call argument when
truthy, otherwise the driver-bound default. -/
def resolveKey (explicit bound : Option String) : Option String :=
  if truthy explicit then explicit else bound

/-- Result of one endpoint operation: the outcome, the driver state after
the call, the advanced round-robin cursor, and the trace of (node, request)
pairs issued to the HTTP capability. -/
structure CallResult where
  result : Except DriverError String
  driver : BigchainDB
  cursor : Nat
  calls : List (String × HttpReq)
  deriving Repr

/-- `TransactionsEndpoint.path` (`driver.py` line 140). -/
def TransactionsEndpoint.path : String := "/transactions/"

/-- `TransactionsEndpoint._push` (`driver.py` lines 235–246): submit a
signed transaction as a POST to the endpoint path via the transport. -/
def TransactionsEndpoint.push (http : String → HttpReq → HttpResult)
    (d : BigchainDB) (cursor : Nat) (tx : SignedTransaction) :
    TransportResult :=
  Transport.forward_request http d.transport cursor
    { method := .POST, path := TransactionsEndpoint.path, body := some tx }

/-- `TransactionsEndpoint.create` (`driver.py` lines 142–176): resolve the
signing key (per-call over bound, raising `InvalidSigningKey` when the
resolution is falsy), then the verifying key likewise (raising
`InvalidVerifyingKey`), build a CREATE transaction with
`owners_before = owners_after = [verifying_key]`, sign it with
`[signing_key]`, and push it. -/
def TransactionsEndpoint.create (http : String → HttpReq → HttpResult)
    (d : BigchainDB) (cursor : Nat) (payload : Payload)
    (verifying_key signing_key : Option String) : CallResult :=
  let sk := resolveKey signing_key d.signing_key
  if truthy sk = false then
    { result := .error .invalidSigningKey, driver := d,
      cursor := cursor, calls := [] }
  else
    let vk := resolveKey verifying_key d.verifying_key
    if truthy vk = false then
      { result := .error .invalidVerifyingKey, driver := d,
        cursor := cursor, calls := [] }
    else
      match Transaction.create [vk.getD ("")] [vk.getD ("")] payload with
      | .error e =>
        { result := .error e, driver := d, cursor := cursor, calls := [] }
      | .ok tx =>
        match Transaction.sign tx [sk.getD ("")] with
        | .error e =>
          { result := .error e, driver := d, cursor := cursor, calls := [] }
        | .ok stx =>
          let r := TransactionsEndpoint.push http d cursor stx
          { result := r.result, driver := d,
            cursor := r.cursor, calls := r.calls }

/-- `TransactionsEndpoint.retrieve` (`driver.py` lines 178–189): GET the
path `'/transactions/' + txid` through the transport and return the
response. -/
def TransactionsEndpoint.retrieve (http : String → HttpReq → HttpResult)
    (d : BigchainDB) (cursor : Nat) (txid : String) : CallResult :=
  let r := Transport.forward_request http d.transport cursor
    { method := .GET, path := TransactionsEndpoint.path ++ txid,
      body := none }
  { result := r.result, driver := d, cursor := r.cursor, calls := r.calls }

/-- `TransactionsEndpoint.status` (`driver.py` lines 191–202): GET the path
`'/transactions/' + txid + '/status'` through the transport and return the
response. -/
def TransactionsEndpoint.status (http : String → HttpReq → HttpResult)
    (d : BigchainDB) (cursor : Nat) (txid : String) : CallResult :=
  let r := Transport.forward_request http d.transport cursor
    { method := .GET,
      path := TransactionsEndpoint.path ++ txid ++ "/status",
      body := none }
  { result := r.result, driver := d, cursor := r.cursor, calls := r.calls }

/-- `TransactionsEndpoint.transfer` (`driver.py` lines 206–233): resolve
the signing key (per-call over bound, raising `InvalidSigningKey` when the
resolution is falsy), derive the inputs from the given prior transaction,
build a TRANSFER transaction to the given new owners, sign it with
`[signing_key]`, and push it.  No verifying key is consulted. -/
def TransactionsEndpoint.transfer (http : String → HttpReq → HttpResult)
    (d : BigchainDB) (cursor : Nat) (transaction : Transaction)
    (owners_after : List String) (signing_key : Option String) : CallResult :=
  let sk := resolveKey signing_key d.signing_key
  if truthy sk = false then
    { result := .error .invalidSigningKey, driver := d,
      cursor := cursor, calls := [] }
  else
    let inputs := Transaction.to_inputs transaction
    let transfer_transaction := Transaction.transfer inputs owners_after
    match Transaction.sign transfer_transaction [sk.getD ("")] with
    | .error e =>
      { result := .error e, driver := d, cursor := cursor, calls := [] }
    | .ok stx =>
      let r := TransactionsEndpoint.push http d cursor stx
      { result := r.result, driver := d, cursor := r.cursor, calls := r.calls }

/-! ## Derived request/transaction shapes and concrete fixtures -/

/-- The request `_push` issues for a signed transaction. -/
def pushReq (stx : SignedTransaction) : HttpReq :=
  { method := .POST, path := TransactionsEndpoint.path, body := some stx }

/-- The signed CREATE transaction `create` builds for resolved keys
`vk`, `sk` and the given payload. -/
def createStx (vk sk : String) (payload : Payload) : SignedTransaction :=
  { transaction := { operation := .CREATE,
                     inputs := [{ fulfills := none, owners_before := [vk] }],
                     outputs := [{ owners_after := [vk] }],
                     payload := payload },
    signedWith := [sk] }

/-- The POST request `create` submits for resolved keys and payload. -/
def createReq (vk sk : String) (payload : Payload) : HttpReq :=
  pushReq (createStx vk sk payload)

/-- The signed TRANSFER transaction `transfer` builds from a prior
transaction, new owners and resolved signing key `sk`. -/
def transferStx (tx : Transaction) (owners_after : List String) (sk : String) :
    SignedTransaction :=
  { transaction := Transaction.transfer (Transaction.to_inputs tx) owners_after,
    signedWith := [sk] }

/-- The POST request `transfer` submits. -/
def transferReq (tx : Transaction) (owners_after : List String) (sk : String) :
    HttpReq :=
  pushReq (transferStx tx owners_after sk)

/-- A GET request with no body. -/
def getReq (p : String) : HttpReq :=
  { method := .GET, path := p, body := none }

/-- An HTTP capability that answers every request successfully. -/
def httpOk : String → HttpReq → HttpResult := fun _ _ => .ok ("stored")

/-- A driver bound to no keys, one default node. -/
def dBare : BigchainDB :=
  { verifying_key := none, signing_key := none,
    transport := { nodes := [defaultNode], maxAttempts := 3 },
    nodes := [defaultNode] }

/-- A driver bound to the keypair `(vk1, sk1)`, one default node. -/
def dBound : BigchainDB :=
  { dBare with verifying_key := some ("vk1"), signing_key := some ("sk1") }

/-- A key-less driver configured with two nodes and attempt ceiling 3. -/
def dTwo : BigchainDB :=
  { verifying_key := none, signing_key := none,
    transport := { nodes := ["n0", "n1"], maxAttempts := 3 },
    nodes := ["n0", "n1"] }

/-- A driver with two nodes and the keypair `(vk1, sk1)` bound. -/
def dBoundTwo : BigchainDB :=
  { dTwo with verifying_key := some ("vk1"), signing_key := some ("sk1") }

/-- An HTTP capability whose first node `n0` is down and whose other nodes
answer successfully. -/
def failThenOk : String → HttpReq → HttpResult :=
  fun node _ => if node = "n0" then .fail ("refused") else .ok ("good")

/-- A concrete prior CREATE transaction with one output, for transfers. -/
def txPrior : Transaction :=
  { operation := .CREATE,
    inputs := [{ fulfills := none, owners_before := ["vk1"] }],
    outputs := [{ owners_after := ["vk1"] }],
    payload := none }

/-! ## Computation lemmas -/

/-- Evaluating `_push`: exactly one attempt on the round-robin node,
success passed through and failure surfaced as `transportError`. -/
theorem push_eval (http : String → HttpReq → HttpResult) (d : BigchainDB)
    (cur : Nat) (stx : SignedTransaction) :
    TransactionsEndpoint.push http d cur stx =
      { result :=
          match http (pickNode d.transport.nodes cur) (pushReq stx) with
          | .ok resp => .ok resp
          | .fail _ =>
            .error (.transportError (pickNode d.transport.nodes cur)),
        cursor := cur + 1,
        calls := [(pickNode d.transport.nodes cur, pushReq stx)] } := by
  show tryNodes http d.transport.nodes (pushReq stx) cur 1 = _
  cases h : http (pickNode d.transport.nodes cur) (pushReq stx) <;>
    simp [tryNodes, h]

/-- A truthy resolved key is a `some` of a non-empty string. -/
theorem truthy_some (sk : String) (h : sk ≠ "") : truthy (some sk) = true := by
  simp [truthy, h]

/-- Evaluating `create` once both keys resolve to truthy values: the CREATE
transaction is built, signed, and pushed on one node. -/
theorem create_eq (http : String → HttpReq → HttpResult) (d : BigchainDB)
    (cur : Nat) (payload : Payload) (vkArg skArg : Option String)
    (vk sk : String)
    (hsk : resolveKey skArg d.signing_key = some sk) (hsk0 : sk ≠ "")
    (hvk : resolveKey vkArg d.verifying_key = some vk) (hvk0 : vk ≠ "") :
    TransactionsEndpoint.create http d cur payload vkArg skArg =
      { result := (TransactionsEndpoint.push http d cur
          (createStx vk sk payload)).result,
        driver := d, cursor := cur + 1,
        calls := [(pickNode d.transport.nodes cur, createReq vk sk payload)] } := by
  simp only [TransactionsEndpoint.create, hsk, hvk, truthy_some sk hsk0,
    truthy_some vk hvk0, Option.getD_some, Transaction.create,
    Transaction.sign, List.isEmpty_cons, Bool.false_or, Bool.or_self,
    Bool.false_eq_true, if_false, reduceCtorEq, push_eval]
  simp [createStx, createReq, pushReq]

/-- Evaluating `transfer` once the signing key resolves to a truthy value:
the TRANSFER transaction is built from the prior transaction's outputs,
signed with the one resolved key, and pushed on one node. -/
theorem transfer_eq (http : String → HttpReq → HttpResult) (d : BigchainDB)
    (cur : Nat) (tx : Transaction) (owners_after : List String)
    (skArg : Option String) (sk : String)
    (hsk : resolveKey skArg d.signing_key = some sk) (hsk0 : sk ≠ "") :
    TransactionsEndpoint.transfer http d cur tx owners_after skArg =
      { result := (TransactionsEndpoint.push http d cur
          (transferStx tx owners_after sk)).result,
        driver := d, cursor := cur + 1,
        calls := [(pickNode d.transport.nodes cur,
          transferReq tx owners_after sk)] } := by
  simp only [TransactionsEndpoint.transfer, hsk, truthy_some sk hsk0,
    Option.getD_some, Transaction.sign, List.isEmpty_cons,
    Bool.false_eq_true, if_false, reduceCtorEq, push_eval]
  simp [transferStx, transferReq, pushReq]

/-- The transport never issues more attempts than its fuel allows. -/
theorem tryNodes_len (http : String → HttpReq → HttpResult)
    (nodes : List String) (req : HttpReq) :
    ∀ fuel cur, (tryNodes http nodes req cur fuel).calls.length ≤ fuel := by
  intro fuel
  induction fuel with
  | zero => intro cur; simp [tryNodes]
  | succ f ih =>
    intro cur
    rw [tryNodes.eq_def]
    cases h : http (pickNode nodes cur) req with
    | ok resp => simp [h]
    | fail msg =>
      cases f with
      | zero => simp [h]
      | succ g =>
        have hb := ih (cur + 1)
        simp [h]
        omega

/-- Every call the transport issues carries the one request it was given. -/
theorem tryNodes_req (http : String → HttpReq → HttpResult)
    (nodes : List String) (req : HttpReq) :
    ∀ fuel cur, (tryNodes http nodes req cur fuel).calls.map Prod.snd =
      List.replicate (tryNodes http nodes req cur fuel).calls.length req := by
  intro fuel
  induction fuel with
  | zero => intro cur; simp [tryNodes]
  | succ f ih =>
    intro cur
    rw [tryNodes.eq_def]
    cases h : http (pickNode nodes cur) req with
    | ok resp => simp [h]
    | fail msg =>
      cases f with
      | zero => simp [h]
      | succ g =>
        simpa [h, List.replicate_succ] using ih (cur + 1)

/-! ## Claim theorems -/

/-- Claim C1 (as amended): when neither a truthy per-call signing key nor a
truthy driver-bound signing key is available, `create` fails with
`InvalidSigningKey`; when the signing key resolves but no verifying key
does, it fails with `InvalidVerifyingKey`.  In both cases the driver state
and cursor are untouched and the calls trace is empty: `forward_request`
is never invoked, so the error precedes any transport call. -/
theorem create_unresolved_keys_fail_fast
    (http : String → HttpReq → HttpResult) (d : BigchainDB) (cur : Nat)
    (payload : Payload) (vkArg skArg : Option String) :
    (truthy (resolveKey skArg d.signing_key) = false →
      TransactionsEndpoint.create http d cur payload vkArg skArg =
        { result := .error .invalidSigningKey, driver := d,
          cursor := cur, calls := [] }) ∧
    (truthy (resolveKey skArg d.signing_key) = true →
      truthy (resolveKey vkArg d.verifying_key) = false →
      TransactionsEndpoint.create http d cur payload vkArg skArg =
        { result := .error .invalidVerifyingKey, driver := d,
          cursor := cur, calls := [] }) := by
  constructor
  · intro hsk
    simp [TransactionsEndpoint.create, hsk]
  · intro hsk hvk
    simp [TransactionsEndpoint.create, hsk, hvk]

/-- Witness for C1's amended theorem: a keyless driver fails with
`InvalidSigningKey` and an empty calls trace; a driver reaching a signing
key but no verifying key fails with `InvalidVerifyingKey` likewise. -/
theorem create_unresolved_keys_fail_fast_witness :
    TransactionsEndpoint.create httpOk dBare 0 none none none =
      { result := .error .invalidSigningKey, driver := dBare,
        cursor := 0, calls := [] } ∧
    TransactionsEndpoint.create httpOk dBare 0 none none (some ("sk1")) =
      { result := .error .invalidVerifyingKey, driver := dBare,
        cursor := 0, calls := [] } :=
  ⟨(create_unresolved_keys_fail_fast httpOk dBare 0 none none none).1
      (by decide),
   (create_unresolved_keys_fail_fast httpOk dBare 0 none none
      (some ("sk1"))).2 (by decide) (by decide)⟩

/-- Counterexample to C1 as stated: with no signing key supplied or bound,
`create` raises the `InvalidSigningKey` exception — which is distinct from
the `MissingSigningKey` the claim names — and with a signing key supplied
but no verifying key it raises `InvalidVerifyingKey`, distinct from
`MissingVerifyingKey`; in both cases no transport call is made (only the
exception's identity differs from the claim). -/
theorem create_missing_key_exception_cex :
    (TransactionsEndpoint.create httpOk dBare 0 none none none).result =
      .error DriverError.invalidSigningKey ∧
    DriverError.invalidSigningKey ≠ DriverError.missingSigningKey ∧
    (TransactionsEndpoint.create httpOk dBare 0 none none none).calls = [] ∧
    (TransactionsEndpoint.create httpOk dBare 0 none none
        (some ("sk1"))).result = .error DriverError.invalidVerifyingKey ∧
    DriverError.invalidVerifyingKey ≠ DriverError.missingVerifyingKey ∧
    (TransactionsEndpoint.create httpOk dBare 0 none none
        (some ("sk1"))).calls = [] :=
  ⟨rfl, by decide, rfl, rfl, by decide, rfl⟩

/-- The mutating `create` path never contacts more than one node,
whatever the oracle does. -/
theorem create_calls_le_one (http : String → HttpReq → HttpResult)
    (d : BigchainDB) (cur : Nat) (payload : Payload)
    (vkArg skArg : Option String) :
    (TransactionsEndpoint.create http d cur payload vkArg
      skArg).calls.length ≤ 1 := by
  simp only [TransactionsEndpoint.create]
  repeat' split
  all_goals simp [push_eval]

/-- The mutating `transfer` path never contacts more than one node,
whatever the oracle does. -/
theorem transfer_calls_le_one (http : String → HttpReq → HttpResult)
    (d : BigchainDB) (cur : Nat) (tx : Transaction) (oa : List String)
    (skArg : Option String) :
    (TransactionsEndpoint.transfer http d cur tx oa skArg).calls.length ≤
      1 := by
  simp only [TransactionsEndpoint.transfer]
  repeat' split
  all_goals simp [push_eval]

/-- Claim C2: a mutating push (the POST path shared by `create` and
`transfer`) is sent to exactly one node for every oracle behaviour —
never retried on another node — and the full `create`/`transfer`
operations never contact more than that one node; GET reads may be
retried up to the attempt ceiling: `retrieve` and `status` never contact
more than `max 1 maxAttempts` nodes, and on a transport that fails on the
first node and succeeds on the second, `retrieve` returns the successful
result having contacted nodes `n0` then `n1`; the same first-node failure
during `create` leaves the call count at one (node `n0` only) and
surfaces the transport error. -/
theorem push_single_node_get_failover :
    (∀ (http : String → HttpReq → HttpResult) (d : BigchainDB) (cur : Nat)
        (stx : SignedTransaction),
      (TransactionsEndpoint.push http d cur stx).calls.length = 1) ∧
    (∀ (http : String → HttpReq → HttpResult) (d : BigchainDB) (cur : Nat)
        (payload : Payload) (vkArg skArg : Option String) (tx : Transaction)
        (oa : List String),
      (TransactionsEndpoint.create http d cur payload vkArg
        skArg).calls.length ≤ 1 ∧
      (TransactionsEndpoint.transfer http d cur tx oa
        skArg).calls.length ≤ 1) ∧
    (∀ (http : String → HttpReq → HttpResult) (d : BigchainDB) (cur : Nat)
        (txid : String),
      (TransactionsEndpoint.retrieve http d cur txid).calls.length ≤
        max 1 d.transport.maxAttempts ∧
      (TransactionsEndpoint.status http d cur txid).calls.length ≤
        max 1 d.transport.maxAttempts) ∧
    (TransactionsEndpoint.retrieve failThenOk dTwo 0 ("t1")).result =
      .ok ("good") ∧
    (TransactionsEndpoint.retrieve failThenOk dTwo 0 ("t1")).calls.map
      Prod.fst = ["n0", "n1"] ∧
    (TransactionsEndpoint.create failThenOk dBoundTwo 0 none none
      none).calls.map Prod.fst = ["n0"] ∧
    (TransactionsEndpoint.create failThenOk dBoundTwo 0 none none
      none).result = .error (DriverError.transportError ("n0")) := by
  refine ⟨?_, ?_, ?_, rfl, rfl, ?_, ?_⟩
  · intro http d cur stx
    rw [push_eval]
    rfl
  · intro http d cur payload vkArg skArg tx oa
    exact ⟨create_calls_le_one http d cur payload vkArg skArg,
      transfer_calls_le_one http d cur tx oa skArg⟩
  · intro http d cur txid
    exact ⟨tryNodes_len http d.transport.nodes _ _ _,
      tryNodes_len http d.transport.nodes _ _ _⟩
  · rfl
  · rfl

/-- Claim C3: whenever `create`'s keys resolve (to verifying key `vk` and signing
key `sk`), the transaction built is a CREATE transaction with
`owners_before = owners_after = [vk]`, it is signed with `[sk]`, and it is
submitted as a single POST to the `'/transactions/'` path. -/
theorem create_builds_signs_posts (http : String → HttpReq → HttpResult)
    (d : BigchainDB) (cur : Nat) (payload : Payload)
    (vkArg skArg : Option String) (vk sk : String)
    (hsk : resolveKey skArg d.signing_key = some sk) (hsk0 : sk ≠ "")
    (hvk : resolveKey vkArg d.verifying_key = some vk) (hvk0 : vk ≠ "") :
    TransactionsEndpoint.create http d cur payload vkArg skArg =
      { result := (TransactionsEndpoint.push http d cur
          { transaction :=
              { operation := .CREATE,
                inputs := [{ fulfills := none, owners_before := [vk] }],
                outputs := [{ owners_after := [vk] }],
                payload := payload },
            signedWith := [sk] }).result,
        driver := d, cursor := cur + 1,
        calls := [(pickNode d.transport.nodes cur,
          { method := .POST, path := "/transactions/",
            body := some
              { transaction :=
                  { operation := .CREATE,
                    inputs := [{ fulfills := none, owners_before := [vk] }],
                    outputs := [{ owners_after := [vk] }],
                    payload := payload },
                signedWith := [sk] } })] } :=
  create_eq http d cur payload vkArg skArg vk sk hsk hsk0 hvk hvk0

/-- Witness for C3: on a driver bound to `(vk1, sk1)` with no per-call
keys, `create` POSTs the singly-owned CREATE transaction signed with `sk1`
to `'/transactions/'` on the default node and returns the response. -/
theorem create_builds_signs_posts_witness :
    TransactionsEndpoint.create httpOk dBound 0 none none none =
      { result := .ok ("stored"), driver := dBound, cursor := 1,
        calls := [(defaultNode, createReq ("vk1") ("sk1") none)] } :=
  (create_builds_signs_posts httpOk dBound 0 none none none ("vk1") ("sk1")
    rfl (by decide) rfl (by decide)).trans rfl

/-- Claim C4: with a resolvable signing key and an empty `owners_after`,
`transfer` completes the build and sign stages without raising — the
signed TRANSFER transaction is pushed (one POST call is traced) — and the
built transaction has zero outputs (burn semantics). -/
theorem transfer_empty_owners_burn (http : String → HttpReq → HttpResult)
    (d : BigchainDB) (cur : Nat) (tx : Transaction) (skArg : Option String)
    (sk : String)
    (hsk : resolveKey skArg d.signing_key = some sk) (hsk0 : sk ≠ "") :
    TransactionsEndpoint.transfer http d cur tx [] skArg =
      { result := (TransactionsEndpoint.push http d cur
          (transferStx tx [] sk)).result,
        driver := d, cursor := cur + 1,
        calls := [(pickNode d.transport.nodes cur, transferReq tx [] sk)] } ∧
    (transferStx tx [] sk).transaction.outputs = [] ∧
    (transferStx tx [] sk).transaction.operation = Operation.TRANSFER :=
  ⟨transfer_eq http d cur tx [] skArg sk hsk hsk0, rfl, rfl⟩

/-- Witness for C4: a burn transfer of a concrete prior transaction on the
bound driver pushes a zero-output TRANSFER transaction and succeeds. -/
theorem transfer_empty_owners_burn_witness :
    TransactionsEndpoint.transfer httpOk dBound 0 txPrior [] none =
      { result := (TransactionsEndpoint.push httpOk dBound 0
          (transferStx txPrior [] ("sk1"))).result,
        driver := dBound, cursor := 1,
        calls := [(pickNode dBound.transport.nodes 0,
          transferReq txPrior [] ("sk1"))] } ∧
    (transferStx txPrior [] ("sk1")).transaction.outputs = [] ∧
    (transferStx txPrior [] ("sk1")).transaction.operation =
      Operation.TRANSFER :=
  transfer_empty_owners_burn httpOk dBound 0 txPrior none ("sk1") rfl
    (by decide)

/-- Claim C5: constructing a driver with a signing key but no verifying key
raises `InvalidVerifyingKey`; a non-string verifying key raises
`InvalidVerifyingKey`; a non-string signing key (alongside any
verifying-key argument that passes its own string check) raises
`InvalidSigningKey`.  `BigchainDB.init` takes no HTTP capability at all,
so each failure necessarily precedes any network I/O. -/
theorem init_key_validation (nodes : List String) (mA : Nat) :
    (∀ s : String, BigchainDB.init nodes mA none (some (.str s)) =
      .error .invalidVerifyingKey) ∧
    (∀ sk : Option PyVal, BigchainDB.init nodes mA (some .nonStr) sk =
      .error .invalidVerifyingKey) ∧
    (∀ vk : Option PyVal, isBadStr vk = false →
      BigchainDB.init nodes mA vk (some .nonStr) =
        .error .invalidSigningKey) := by
  refine ⟨fun s => rfl, fun sk => ?_, fun vk hvk => ?_⟩
  · simp [BigchainDB.init, isBadStr]
  · have h2 : isBadStr (some PyVal.nonStr) = true := rfl
    simp [BigchainDB.init, hvk, h2]

/-- Witness for C5: `Driver(signing_key="abc")` without a verifying key
fails with `InvalidVerifyingKey`; a non-string signing key alongside an
absent verifying key fails with `InvalidSigningKey`; a non-string
verifying key fails with `InvalidVerifyingKey`. -/
theorem init_key_validation_witness :
    BigchainDB.init [] 3 none (some (.str ("abc"))) =
      .error .invalidVerifyingKey ∧
    BigchainDB.init [] 3 (some .nonStr) none = .error .invalidVerifyingKey ∧
    BigchainDB.init [] 3 none (some .nonStr) = .error .invalidSigningKey :=
  ⟨(init_key_validation [] 3).1 ("abc"),
   (init_key_validation [] 3).2.1 none,
   (init_key_validation [] 3).2.2 none (by decide)⟩

/-- A truthy per-call key argument resolves to itself. -/
theorem resolveKey_truthy (k : String) (h : k ≠ "") (bound : Option String) :
    resolveKey (some k) bound = some k := by
  simp [resolveKey, truthy_some k h]

/-- An absent per-call key argument resolves to the bound default. -/
theorem resolveKey_none (bound : Option String) :
    resolveKey none bound = bound := rfl

/-- Counterexample to C6 as stated: the per-call signing key `""` is
supplied, yet `create` on a driver bound to `sk1` signs and pushes with
the bound `sk1` — the driver-bound default is used even though a per-call
argument was given, because resolution tests Python truthiness rather
than argument presence. -/
theorem explicit_empty_key_overridden_cex :
    resolveKey (some ("")) (some ("sk1")) = some ("sk1") ∧
    (TransactionsEndpoint.create httpOk dBound 0 none none
        (some (""))).calls =
      [(defaultNode, createReq ("vk1") ("sk1") none)] ∧
    (createStx ("vk1") ("sk1") none).signedWith = ["sk1"] ∧
    ("sk1" : String) ≠ ("") :=
  ⟨rfl, rfl, rfl, by decide⟩

/-- Claim C6 (as amended): a truthy (non-empty) per-call key argument takes
precedence over the driver-bound default in both `create` and `transfer`,
and the driver-bound default is used when the per-call argument is absent
— or, more generally, falsy. -/
theorem resolve_key_precedence (http : String → HttpReq → HttpResult)
    (d : BigchainDB) (cur : Nat) (payload : Payload) (tx : Transaction)
    (oa : List String) (vk sk : String) (hvk : vk ≠ "") (hsk : sk ≠ "") :
    (TransactionsEndpoint.create http d cur payload (some vk)
        (some sk)).calls =
      [(pickNode d.transport.nodes cur, createReq vk sk payload)] ∧
    (d.verifying_key = some vk → d.signing_key = some sk →
      (TransactionsEndpoint.create http d cur payload none none).calls =
        [(pickNode d.transport.nodes cur, createReq vk sk payload)]) ∧
    (TransactionsEndpoint.transfer http d cur tx oa (some sk)).calls =
      [(pickNode d.transport.nodes cur, transferReq tx oa sk)] ∧
    (d.signing_key = some sk →
      (TransactionsEndpoint.transfer http d cur tx oa none).calls =
        [(pickNode d.transport.nodes cur, transferReq tx oa sk)]) := by
  refine ⟨?_, fun hbvk hbsk => ?_, ?_, fun hbsk => ?_⟩
  · rw [create_eq http d cur payload (some vk) (some sk) vk sk
      (resolveKey_truthy sk hsk d.signing_key) hsk
      (resolveKey_truthy vk hvk d.verifying_key) hvk]
  · rw [create_eq http d cur payload none none vk sk
      ((resolveKey_none d.signing_key).trans hbsk) hsk
      ((resolveKey_none d.verifying_key).trans hbvk) hvk]
  · rw [transfer_eq http d cur tx oa (some sk) sk
      (resolveKey_truthy sk hsk d.signing_key) hsk]
  · rw [transfer_eq http d cur tx oa none sk
      ((resolveKey_none d.signing_key).trans hbsk) hsk]

/-- Witness for C6's amended theorem at the bound driver `(vk1, sk1)`:
explicit arguments and bound defaults each produce the resolved push. -/
theorem resolve_key_precedence_witness :
    (TransactionsEndpoint.create httpOk dBound 0 none (some ("vk1"))
        (some ("sk1"))).calls =
      [(defaultNode, createReq ("vk1") ("sk1") none)] ∧
    (TransactionsEndpoint.create httpOk dBound 0 none none none).calls =
      [(defaultNode, createReq ("vk1") ("sk1") none)] ∧
    (TransactionsEndpoint.transfer httpOk dBound 0 txPrior ["vk3"]
        (some ("sk1"))).calls =
      [(defaultNode, transferReq txPrior ["vk3"] ("sk1"))] ∧
    (TransactionsEndpoint.transfer httpOk dBound 0 txPrior ["vk3"]
        none).calls =
      [(defaultNode, transferReq txPrior ["vk3"] ("sk1"))] := by
  have h := resolve_key_precedence httpOk dBound 0 none txPrior ["vk3"]
    ("vk1") ("sk1") (by decide) (by decide)
  exact ⟨h.1, h.2.1 rfl rfl, h.2.2.1, h.2.2.2 rfl⟩

/-- GET forwarding issues the one request it is given on every attempt. -/
theorem forward_get_req (http : String → HttpReq → HttpResult)
    (t : Transport) (cur : Nat) (p : String) :
    (Transport.forward_request http t cur (getReq p)).calls.map Prod.snd =
      List.replicate
        (Transport.forward_request http t cur (getReq p)).calls.length
        (getReq p) :=
  tryNodes_req http t.nodes (getReq p) _ cur

/-- Claim C7: `retrieve txid` issues GET requests to the path
`'/transactions/' ++ txid` only, and returns the transport's parsed
response for that request; `status txid` likewise for the path
`'/transactions/' ++ txid ++ '/status'`. -/
theorem retrieve_status_get_paths (http : String → HttpReq → HttpResult)
    (d : BigchainDB) (cur : Nat) (txid : String) :
    (TransactionsEndpoint.retrieve http d cur txid).result =
      (Transport.forward_request http d.transport cur
        (getReq ("/transactions/" ++ txid))).result ∧
    (TransactionsEndpoint.retrieve http d cur txid).calls.map Prod.snd =
      List.replicate
        (TransactionsEndpoint.retrieve http d cur txid).calls.length
        (getReq ("/transactions/" ++ txid)) ∧
    (TransactionsEndpoint.status http d cur txid).result =
      (Transport.forward_request http d.transport cur
        (getReq ("/transactions/" ++ txid ++ "/status"))).result ∧
    (TransactionsEndpoint.status http d cur txid).calls.map Prod.snd =
      List.replicate
        (TransactionsEndpoint.status http d cur txid).calls.length
        (getReq ("/transactions/" ++ txid ++ "/status")) :=
  ⟨rfl, forward_get_req http d.transport cur ("/transactions/" ++ txid),
   rfl, forward_get_req http d.transport cur
     ("/transactions/" ++ txid ++ "/status")⟩

/-- Claim C8: every public operation returns the driver's bound state —
verifying key, signing key, transport and nodes tuple — exactly as it was
before the call; per-call key arguments never mutate the bound defaults
(only the externally threaded round-robin cursor advances). -/
theorem bound_state_frame (http : String → HttpReq → HttpResult)
    (d : BigchainDB) (cur : Nat) (payload : Payload)
    (vkArg skArg : Option String) (tx : Transaction) (oa : List String)
    (txid : String) :
    (TransactionsEndpoint.create http d cur payload vkArg skArg).driver =
      d ∧
    (TransactionsEndpoint.transfer http d cur tx oa skArg).driver = d ∧
    (TransactionsEndpoint.retrieve http d cur txid).driver = d ∧
    (TransactionsEndpoint.status http d cur txid).driver = d := by
  refine ⟨?_, ?_, rfl, rfl⟩
  · simp only [TransactionsEndpoint.create]
    repeat' split
    all_goals rfl
  · simp only [TransactionsEndpoint.transfer]
    repeat' split
    all_goals rfl

/-- Claim C9: a falsy per-call key argument (the empty string) resolves exactly
as an absent one — to the driver-bound default — and when the bound
default is also absent or falsy, `create` and `transfer` raise the
missing-key error (`InvalidSigningKey`) without any transport call; the
empty string itself is never used as a key. -/
theorem falsy_key_treated_as_absent (http : String → HttpReq → HttpResult)
    (d : BigchainDB) (cur : Nat) (payload : Payload) (tx : Transaction)
    (oa : List String) :
    (∀ bound : Option String,
      resolveKey (some ("")) bound = resolveKey none bound) ∧
    (∀ skArg : Option String,
      truthy (resolveKey skArg d.signing_key) = false →
      TransactionsEndpoint.create http d cur payload none skArg =
        { result := .error .invalidSigningKey, driver := d,
          cursor := cur, calls := [] } ∧
      TransactionsEndpoint.transfer http d cur tx oa skArg =
        { result := .error .invalidSigningKey, driver := d,
          cursor := cur, calls := [] }) := by
  refine ⟨fun bound => rfl, fun skArg h => ⟨?_, ?_⟩⟩
  · simp [TransactionsEndpoint.create, h]
  · simp [TransactionsEndpoint.transfer, h]

/-- Witness for C9: on a keyless driver, the supplied empty-string signing
key resolves as absent and both mutating operations fail with
`InvalidSigningKey` before any transport call. -/
theorem falsy_key_treated_as_absent_witness :
    resolveKey (some ("")) (some ("sk1")) = resolveKey none (some ("sk1")) ∧
    TransactionsEndpoint.create httpOk dBare 0 none none (some ("")) =
      { result := .error .invalidSigningKey, driver := dBare,
        cursor := 0, calls := [] } ∧
    TransactionsEndpoint.transfer httpOk dBare 0 txPrior [] (some ("")) =
      { result := .error .invalidSigningKey, driver := dBare,
        cursor := 0, calls := [] } := by
  have h := falsy_key_treated_as_absent httpOk dBare 0 none txPrior []
  exact ⟨h.1 (some ("sk1")), (h.2 (some ("")) (by decide)).1,
    (h.2 (some ("")) (by decide)).2⟩

/-- Transfer is insensitive to the driver-bound verifying key: changing it
changes nothing but the echoed driver state. -/
theorem transfer_update_vk (http : String → HttpReq → HttpResult)
    (d : BigchainDB) (cur : Nat) (tx : Transaction) (oa : List String)
    (skArg vk2 : Option String) :
    TransactionsEndpoint.transfer http { d with verifying_key := vk2 }
        cur tx oa skArg =
      { TransactionsEndpoint.transfer http d cur tx oa skArg with
          driver := { d with verifying_key := vk2 } } := by
  cases h : truthy (resolveKey skArg d.signing_key) <;>
    simp [TransactionsEndpoint.transfer, h, Transaction.sign, push_eval]

/-- Claim C10: `transfer` never consults a verifying key — replacing the bound
verifying key alters neither the result, nor the cursor, nor the calls
trace, and the result is never a verifying-key error — and for every
prior transaction (however many inputs it yields) the pushed TRANSFER
transaction is signed with exactly the singleton `[sk]` of the resolved
signing key. -/
theorem transfer_ignores_verifying_key (http : String → HttpReq → HttpResult)
    (d : BigchainDB) (cur : Nat) (tx : Transaction) (oa : List String)
    (skArg vk2 : Option String) (sk : String) :
    ((TransactionsEndpoint.transfer http { d with verifying_key := vk2 }
        cur tx oa skArg).result =
      (TransactionsEndpoint.transfer http d cur tx oa skArg).result ∧
     (TransactionsEndpoint.transfer http { d with verifying_key := vk2 }
        cur tx oa skArg).cursor =
      (TransactionsEndpoint.transfer http d cur tx oa skArg).cursor ∧
     (TransactionsEndpoint.transfer http { d with verifying_key := vk2 }
        cur tx oa skArg).calls =
      (TransactionsEndpoint.transfer http d cur tx oa skArg).calls) ∧
    ((TransactionsEndpoint.transfer http d cur tx oa skArg).result ≠
      .error .invalidVerifyingKey ∧
     (TransactionsEndpoint.transfer http d cur tx oa skArg).result ≠
      .error .missingVerifyingKey) ∧
    (resolveKey skArg d.signing_key = some sk → sk ≠ "" →
      (TransactionsEndpoint.transfer http d cur tx oa skArg).calls.map
          (fun c => (Prod.snd c).body) = [some (transferStx tx oa sk)] ∧
      (transferStx tx oa sk).signedWith = [sk]) := by
  refine ⟨?_, ?_, fun hsk hsk0 => ?_⟩
  · rw [transfer_update_vk]
    exact ⟨rfl, rfl, rfl⟩
  · cases h : truthy (resolveKey skArg d.signing_key) with
    | false =>
      simp [TransactionsEndpoint.transfer, h]
    | true =>
      simp only [TransactionsEndpoint.transfer, h, Transaction.sign,
        List.isEmpty_cons, Bool.false_eq_true, if_false, push_eval,
        Bool.true_eq_false]
      split <;> simp
  · rw [transfer_eq http d cur tx oa skArg sk hsk hsk0]
    exact ⟨rfl, rfl⟩

/-- Witness for C10: on the bound driver, replacing the verifying key
leaves the transfer's result unchanged, and the pushed body is the
TRANSFER transaction signed with exactly `[sk1]`. -/
theorem transfer_ignores_verifying_key_witness :
    (TransactionsEndpoint.transfer httpOk
        { dBound with verifying_key := some ("other") } 0 txPrior []
        none).result =
      (TransactionsEndpoint.transfer httpOk dBound 0 txPrior [] none).result ∧
    (TransactionsEndpoint.transfer httpOk dBound 0 txPrior [] none).calls.map
        (fun c => (Prod.snd c).body) = [some (transferStx txPrior [] ("sk1"))] ∧
    (transferStx txPrior [] ("sk1")).signedWith = ["sk1"] := by
  have h := transfer_ignores_verifying_key httpOk dBound 0 txPrior [] none
    (some ("other")) ("sk1")
  exact ⟨h.1.1, (h.2.2 rfl (by decide)).1, (h.2.2 rfl (by decide)).2⟩
